import Mathlib

/-
  Verification of `pymongo/ssl_support.py` (TLS client-context resolver).

  The module defines, depending on whether the `ssl` module imported
  (`HAVE_SSL`), either the real `validate_cert_reqs` / `get_ssl_context`
  or stubs that raise `ConfigurationError`.  We embed both branches and a
  dispatcher selecting between them on the `haveSSL` flag of the runtime
  environment.  Python values relevant to `cert_reqs` are embedded as
  `PyVal`; runtime capabilities (`hasattr` probes, optional imports,
  `sys.platform`, filesystem load outcomes, the `ssl` module's attribute
  table) are collected in `Env`.  Side effects (file loads, default-cert
  loading, OS-store reads, `atexit` registration) are recorded as an event
  list, and the `_WINCERTS` global is threaded explicitly as state.
-/

namespace PyMongoSSL

/-- A Python value in the positions `cert_reqs` can occupy: `None`, an int
(the three `ssl.CERT_*` constants are the ints 0, 1, 2 in CPython), a
string, or any other object. -/
inductive PyVal
  | pynone
  | pyint (n : Int)
  | pystr (s : String)
  | pyother
deriving DecidableEq, Repr

/-- `ssl.CERT_NONE` (the int 0 in CPython). -/
def CERT_NONE : PyVal := .pyint 0

/-- `ssl.CERT_OPTIONAL` (the int 1 in CPython). -/
def CERT_OPTIONAL : PyVal := .pyint 1

/-- `ssl.CERT_REQUIRED` (the int 2 in CPython). -/
def CERT_REQUIRED : PyVal := .pyint 2

/-- The runtime environment the module observes: optional-import flags,
`hasattr` probes on the context class and the `ssl` module, the platform,
and the outcome of filesystem loads. -/
structure Env where
  /-- `HAVE_SSL`: the `ssl` module imported. -/
  haveSSL : Bool
  /-- `HAVE_CERTIFI`: the `certifi` package imported. -/
  haveCertifi : Bool
  /-- `HAVE_WINCERTSTORE`: the `wincertstore` package imported. -/
  haveWincertstore : Bool
  /-- `sys.platform == "win32"`. -/
  isWin32 : Bool
  /-- `hasattr(ctx, "options")`. -/
  hasOptions : Bool
  /-- `hasattr(ctx, "load_default_certs")`. -/
  hasLoadDefaultCerts : Bool
  /-- `hasattr(ctx, "set_default_verify_paths")`. -/
  hasSetDefaultVerifyPaths : Bool
  /-- `hasattr(ctx, "verify_flags")`. -/
  hasVerifyFlags : Bool
  /-- `getattr(ssl, name)` for attribute `name`, `none` when
  `hasattr(ssl, name)` is false. -/
  sslAttrs : String → Option PyVal
  /-- Whether `SSLContext.load_verify_locations(path)` succeeds. -/
  loadOk : String → Bool
  /-- Whether `SSLContext.load_cert_chain(certfile, keyfile)` succeeds. -/
  certChainOk : String → Option String → Bool
  /-- The `name` of the `wincertstore.CertFile` temp file produced by a
  successful OS-store load. -/
  wincertsName : String
  /-- `certifi.where()`. -/
  certifiWhere : String

/-- Errors raised by the module, one constructor per raise site:
`valueError` is the `ValueError` of `validate_cert_reqs`;
`crlUnsupported`, `noTrustMaterial`, `cantValidate` and `sslUnavailable`
are the four `ConfigurationError` sites; `loadFailure` and
`certChainFailure` are exceptions propagating out of
`load_verify_locations` / `load_cert_chain`. -/
inductive Err
  | valueError (option : String)
  | crlUnsupported
  | noTrustMaterial
  | cantValidate (option : String)
  | sslUnavailable
  | loadFailure (path : String)
  | certChainFailure (certfile : String)
deriving DecidableEq, Repr

/-- The `elif isinstance(value, string_type) and hasattr(ssl, value):
value = getattr(ssl, value)` step of `validate_cert_reqs`: a string
naming an `ssl`-module attribute is replaced by that attribute's value;
every other value is unchanged. -/
def resolveAlias (e : Env) (value : PyVal) : PyVal :=
  match value with
  | .pystr s =>
    match e.sslAttrs s with
    | some a => a
    | none => .pystr s
  | v => v

/-- `validate_cert_reqs` as defined under `if HAVE_SSL:`.  `None` passes
through; a string that is an attribute of the `ssl` module is replaced by
that attribute's value; then the value is accepted iff it is one of
`ssl.CERT_NONE`, `ssl.CERT_OPTIONAL`, `ssl.CERT_REQUIRED`. -/
def validate_cert_reqs_hasSSL (e : Env) (option : String) (value : PyVal) :
    Except Err PyVal :=
  if value = .pynone then
    .ok value
  else
    let value := resolveAlias e value
    if value = CERT_NONE ∨ value = CERT_OPTIONAL ∨ value = CERT_REQUIRED then
      .ok value
    else
      .error (.valueError option)

/-- `validate_cert_reqs` as the module exposes it: the `HAVE_SSL` branch
when the `ssl` module imported, otherwise the stub that raises
`ConfigurationError` for every input. -/
def validate_cert_reqs (e : Env) (option : String) (value : PyVal) :
    Except Err PyVal :=
  if e.haveSSL then validate_cert_reqs_hasSSL e option value
  else .error (.cantValidate option)

/-- Observable actions performed while assembling a context. -/
inductive Ev
  | loadCertChain (certfile : String) (keyfile : Option String)
  | loadVerifyLocations (path : String)
  | loadDefaultCerts
  | setDefaultVerifyPaths
  | osStoreLoad
  | atexitRegister
deriving DecidableEq, Repr

/-- The assembled SSLContext, as the fields this module touches. -/
structure Ctx where
  /-- `ctx.options |= OP_NO_SSLv2` applied. -/
  noSSLv2 : Bool
  /-- `ctx.options |= OP_NO_SSLv3` applied. -/
  noSSLv3 : Bool
  /-- The client certificate chain loaded by `load_cert_chain`. -/
  clientCert : Option (String × Option String) := none
  /-- `ctx.verify_flags = ssl.VERIFY_CRL_CHECK_LEAF` applied. -/
  verifyFlagsCRLCheckLeaf : Bool := false
  /-- Paths loaded through `ctx.load_verify_locations`, in order. -/
  verifyLocations : List String := []
  /-- `ctx.load_default_certs()` called. -/
  defaultCertsLoaded : Bool := false
  /-- `ctx.set_default_verify_paths()` called. -/
  defaultVerifyPathsSet : Bool := false
  /-- `ctx.verify_mode`, once assigned at the end of assembly. -/
  verifyMode : Option PyVal := none
deriving DecidableEq, Repr

instance {ε α : Type} [DecidableEq ε] [DecidableEq α] : DecidableEq (Except ε α) := by
  intro a b
  cases a <;> cases b
  case error.error x y =>
    exact if h : x = y then .isTrue (by rw [h]) else .isFalse (fun hc => h (by cases hc; rfl))
  case ok.ok x y =>
    exact if h : x = y then .isTrue (by rw [h]) else .isFalse (fun hc => h (by cases hc; rfl))
  case error.ok x y => exact .isFalse (fun hc => by cases hc)
  case ok.error x y => exact .isFalse (fun hc => by cases hc)

/-- Result of one `get_ssl_context` call: the value or error, the
`_WINCERTS` global afterwards, and the actions performed, in order. -/
structure BuildOut where
  res : Except Err Ctx
  wincerts : Option String
  evs : List Ev
deriving DecidableEq, Repr

/-- The freshly constructed `SSLContext(ssl.PROTOCOL_SSLv23)` after the
`ctx.options` hardening: SSLv2/SSLv3 are disabled when the context object
exposes `options` and the `ssl` module has the corresponding `OP_NO_*`
constant (`getattr(ssl, "OP_NO_SSLv2", 0)` is a no-op otherwise). -/
def initCtx (e : Env) : Ctx :=
  { noSSLv2 := e.hasOptions && (e.sslAttrs "OP_NO_SSLv2").isSome
    noSSLv3 := e.hasOptions && (e.sslAttrs "OP_NO_SSLv3").isSome }

/-- The final `ctx.verify_mode = ssl.CERT_REQUIRED if cert_reqs is None
else cert_reqs` assignment. -/
def finishCtx (ctx : Ctx) (cert_reqs : PyVal) : Ctx :=
  { ctx with verifyMode := some (if cert_reqs = .pynone then CERT_REQUIRED else cert_reqs) }

/-- The `with _WINCERTSLOCK:` critical section: if `_WINCERTS is None`,
`_load_wincerts()` reads the OS store ("CA" and "ROOT"), registers the
release callback with `atexit`, and publishes the handle; otherwise the
cached handle is kept.  The mutex makes the section atomic. -/
def wincertsLockStep (e : Env) (st : Option String) : Option String × List Ev :=
  match st with
  | none => (some e.wincertsName, [.osStoreLoad, .atexitRegister])
  | some h => (some h, [])

/-- The `if ca_certs is not None: ... elif cert_reqs != ssl.CERT_NONE:`
stage of `get_ssl_context`, followed by the final `verify_mode`
assignment.  The `elif` chain is the CA-resolution ladder:
`load_default_certs`, then (not win32) `set_default_verify_paths`, then
(win32) the wincertstore cache, then certifi, else `ConfigurationError`. -/
def caStep (e : Env) (st : Option String) (ctx : Ctx) (evs : List Ev)
    (ca_certs : Option String) (cert_reqs : PyVal) : BuildOut :=
  match ca_certs with
  | some ca =>
    let evs := evs ++ [Ev.loadVerifyLocations ca]
    if e.loadOk ca then
      ⟨.ok (finishCtx { ctx with verifyLocations := ctx.verifyLocations ++ [ca] } cert_reqs),
        st, evs⟩
    else ⟨.error (.loadFailure ca), st, evs⟩
  | none =>
    if cert_reqs ≠ CERT_NONE then
      if e.hasLoadDefaultCerts then
        ⟨.ok (finishCtx { ctx with defaultCertsLoaded := true } cert_reqs),
          st, evs ++ [Ev.loadDefaultCerts]⟩
      else if !e.isWin32 && e.hasSetDefaultVerifyPaths then
        ⟨.ok (finishCtx { ctx with defaultVerifyPathsSet := true } cert_reqs),
          st, evs ++ [Ev.setDefaultVerifyPaths]⟩
      else if e.isWin32 && e.haveWincertstore then
        let p := wincertsLockStep e st
        let name := p.1.getD ""
        let evs := evs ++ p.2 ++ [Ev.loadVerifyLocations name]
        if e.loadOk name then
          ⟨.ok (finishCtx { ctx with verifyLocations := ctx.verifyLocations ++ [name] } cert_reqs),
            p.1, evs⟩
        else ⟨.error (.loadFailure name), p.1, evs⟩
      else if e.haveCertifi then
        let evs := evs ++ [Ev.loadVerifyLocations e.certifiWhere]
        if e.loadOk e.certifiWhere then
          ⟨.ok (finishCtx { ctx with verifyLocations := ctx.verifyLocations ++ [e.certifiWhere] } cert_reqs),
            st, evs⟩
        else ⟨.error (.loadFailure e.certifiWhere), st, evs⟩
      else ⟨.error .noTrustMaterial, st, evs⟩
    else ⟨.ok (finishCtx ctx cert_reqs), st, evs⟩

/-- The `if crlfile is not None:` stage: without `verify_flags` support a
`ConfigurationError` is raised before anything touches the CRL file;
otherwise `VERIFY_CRL_CHECK_LEAF` is set and the CRL file loaded via
`load_verify_locations`. -/
def crlStep (e : Env) (st : Option String) (ctx : Ctx) (evs : List Ev)
    (ca_certs : Option String) (cert_reqs : PyVal) (crlfile : Option String) : BuildOut :=
  match crlfile with
  | some f =>
    if e.hasVerifyFlags then
      let ctx := { ctx with verifyFlagsCRLCheckLeaf := true }
      let evs := evs ++ [Ev.loadVerifyLocations f]
      if e.loadOk f then
        caStep e st { ctx with verifyLocations := ctx.verifyLocations ++ [f] } evs
          ca_certs cert_reqs
      else ⟨.error (.loadFailure f), st, evs⟩
    else ⟨.error .crlUnsupported, st, evs⟩
  | none => caStep e st ctx evs ca_certs cert_reqs

/-- The `if certfile is not None: ctx.load_cert_chain(certfile, keyfile)`
stage. -/
def certStep (e : Env) (st : Option String) (ctx : Ctx)
    (certfile keyfile ca_certs : Option String) (cert_reqs : PyVal)
    (crlfile : Option String) : BuildOut :=
  match certfile with
  | some c =>
    let evs := [Ev.loadCertChain c keyfile]
    if e.certChainOk c keyfile then
      crlStep e st { ctx with clientCert := some (c, keyfile) } evs ca_certs cert_reqs crlfile
    else ⟨.error (.certChainFailure c), st, evs⟩
  | none => crlStep e st ctx [] ca_certs cert_reqs crlfile

/-- `get_ssl_context` as defined under `if HAVE_SSL:`: build the hardened
context, then the client-certificate, CRL, CA-resolution and
`verify_mode` stages in the source's order. -/
def get_ssl_context_hasSSL (e : Env) (st : Option String)
    (certfile keyfile ca_certs : Option String) (cert_reqs : PyVal)
    (crlfile : Option String) : BuildOut :=
  certStep e st (initCtx e) certfile keyfile ca_certs cert_reqs crlfile

/-- `get_ssl_context` as the module exposes it: the `HAVE_SSL` branch when
the `ssl` module imported, otherwise the stub raising
`ConfigurationError`. -/
def get_ssl_context (e : Env) (st : Option String)
    (certfile keyfile ca_certs : Option String) (cert_reqs : PyVal)
    (crlfile : Option String) : BuildOut :=
  if e.haveSSL then get_ssl_context_hasSSL e st certfile keyfile ca_certs cert_reqs crlfile
  else ⟨.error .sslUnavailable, st, []⟩

/-- The caller-supplied TLS options (the spec's `TLSOptions`). -/
structure TLSOptions where
  certFile : Option String := none
  keyFile : Option String := none
  caFile : Option String := none
  crlFile : Option String := none
  certReqs : PyVal := .pynone
deriving DecidableEq, Repr

/-- Modelled from the spec: the caller-side wiring (the spec's
ContextBuilder pipeline, in which option validation runs before context
assembly) lives in `pymongo/common.py` / client construction, which is
not under `src/`.  Per the spec's control flow, `certReqs` is resolved
through CertReqsValidator first; only a validated value reaches
`get_ssl_context`. -/
def build_context (e : Env) (st : Option String) (opts : TLSOptions) : BuildOut :=
  match validate_cert_reqs e "ssl_cert_reqs" opts.certReqs with
  | .error err => ⟨.error err, st, []⟩
  | .ok cr => get_ssl_context e st opts.certFile opts.keyFile opts.caFile cr opts.crlFile

/-- The trust source chosen by the spec's CA-resolution ladder. -/
inductive TrustSource
  | noVerification
  | explicitCA
  | systemDefault
  | defaultVerifyPaths
  | osStore
  | bundled
deriving DecidableEq, Repr

/-- Written from the spec's words (section 4.4): the ordered,
capability-gated CA-resolution ladder; `none` is the `NoTrustMaterial`
outcome.  The step-4 "generic default-verify-path mechanism" is the
`set_default_verify_paths` probe. -/
def ca_resolution_chain (e : Env) (caFileSupplied certReqsIsNone : Bool) :
    Option TrustSource :=
  if certReqsIsNone then some .noVerification
  else if caFileSupplied then some .explicitCA
  else if e.hasLoadDefaultCerts then some .systemDefault
  else if !e.isWin32 && e.hasSetDefaultVerifyPaths then some .defaultVerifyPaths
  else if e.isWin32 && e.haveWincertstore then some .osStore
  else if e.haveCertifi then some .bundled
  else none

/-- Written from the spec's words: the full observable outcome the ladder
prescribes for a call that reaches it (no client cert, no CRL, no
explicit CA, verification demanded), used to state that the source
follows the ladder exactly and stops at the first matching step. -/
def chainOutcome (e : Env) (st : Option String) (cert_reqs : PyVal) : BuildOut :=
  match ca_resolution_chain e false false with
  | some TrustSource.systemDefault =>
    ⟨.ok (finishCtx { initCtx e with defaultCertsLoaded := true } cert_reqs),
      st, [Ev.loadDefaultCerts]⟩
  | some TrustSource.defaultVerifyPaths =>
    ⟨.ok (finishCtx { initCtx e with defaultVerifyPathsSet := true } cert_reqs),
      st, [Ev.setDefaultVerifyPaths]⟩
  | some TrustSource.osStore =>
    let name := st.getD e.wincertsName
    let pre : List Ev :=
      match st with
      | none => [Ev.osStoreLoad, Ev.atexitRegister]
      | some _ => []
    ⟨if e.loadOk name then
        .ok (finishCtx { initCtx e with verifyLocations := [name] } cert_reqs)
      else .error (.loadFailure name),
      some name, pre ++ [Ev.loadVerifyLocations name]⟩
  | some TrustSource.bundled =>
    ⟨if e.loadOk e.certifiWhere then
        .ok (finishCtx { initCtx e with verifyLocations := [e.certifiWhere] } cert_reqs)
      else .error (.loadFailure e.certifiWhere),
      st, [Ev.loadVerifyLocations e.certifiWhere]⟩
  | _ => ⟨.error Err.noTrustMaterial, st, []⟩

/-- Chain-only actions: those only the CA-resolution ladder can emit. -/
def isChainEv : Ev → Bool
  | .loadDefaultCerts => true
  | .setDefaultVerifyPaths => true
  | .osStoreLoad => true
  | .atexitRegister => true
  | _ => false

/-- `n` serialized passes through the wincertstore critical section (the
mutex serializes concurrent callers, so any interleaving is such a
sequence).  Returns the final `_WINCERTS` global, the actions performed,
and the handle each caller received. -/
def wincertsGetAll (e : Env) : Nat → Option String → Option String × List Ev × List String
  | 0, st => (st, [], [])
  | n + 1, st =>
    let p := wincertsLockStep e st
    let h := p.1.getD ""
    let q := wincertsGetAll e n p.1
    (q.1, p.2 ++ q.2.1, h :: q.2.2)

/-- The `ssl` module attribute table of a CPython runtime, restricted to
the attributes this module looks up and to `PROTOCOL_SSLv23`, whose value
is the int 2 (equal to `ssl.CERT_REQUIRED`) in every CPython version this
code supports. -/
def cpythonAttrs : String → Option PyVal := fun s =>
  if s = "CERT_NONE" then some CERT_NONE
  else if s = "CERT_OPTIONAL" then some CERT_OPTIONAL
  else if s = "CERT_REQUIRED" then some CERT_REQUIRED
  else if s = "PROTOCOL_SSLv23" then some (.pyint 2)
  else if s = "OP_NO_SSLv2" then some (.pyint 16777216)
  else if s = "OP_NO_SSLv3" then some (.pyint 33554432)
  else none

/-- A concrete fully-capable CPython runtime used for witnesses. -/
def baseEnv : Env :=
  { haveSSL := true
    haveCertifi := true
    haveWincertstore := false
    isWin32 := false
    hasOptions := true
    hasLoadDefaultCerts := true
    hasSetDefaultVerifyPaths := true
    hasVerifyFlags := true
    sslAttrs := cpythonAttrs
    loadOk := fun _ => true
    certChainOk := fun _ _ => true
    wincertsName := "wincerts.pem"
    certifiWhere := "certifi/cacert.pem" }

/-- The `ssl` module attribute table holds the three `CERT_*` constants
(true of every runtime in which the `HAVE_SSL` branch is defined, since
that code dereferences `ssl.CERT_NONE` itself). -/
def Env.wfAttrs (e : Env) : Prop :=
  e.sslAttrs "CERT_NONE" = some CERT_NONE ∧
  e.sslAttrs "CERT_OPTIONAL" = some CERT_OPTIONAL ∧
  e.sslAttrs "CERT_REQUIRED" = some CERT_REQUIRED

/-- Any `.ok` outcome of the `HAVE_SSL` validator is `None` or one of the
three `ssl.CERT_*` constants. -/
theorem validate_hasSSL_ok_shape (e : Env) (o : String) (v cr : PyVal)
    (h : validate_cert_reqs_hasSSL e o v = .ok cr) :
    cr = .pynone ∨ cr = CERT_NONE ∨ cr = CERT_OPTIONAL ∨ cr = CERT_REQUIRED := by
  unfold validate_cert_reqs_hasSSL at h
  split at h
  · next hv =>
    simp only [Except.ok.injEq] at h
    subst h
    exact Or.inl hv
  · simp only [] at h
    split at h
    · next hmem =>
      simp only [Except.ok.injEq] at h
      subst h
      exact Or.inr hmem
    · simp at h

/-- Any `.error` outcome of the `HAVE_SSL` validator is the `ValueError`
naming the option. -/
theorem validate_hasSSL_error_shape (e : Env) (o : String) (v : PyVal) (err : Err)
    (h : validate_cert_reqs_hasSSL e o v = .error err) :
    err = .valueError o := by
  unfold validate_cert_reqs_hasSSL at h
  split at h
  · simp at h
  · simp only [] at h
    split at h
    · simp at h
    · simp only [Except.error.injEq] at h
      exact h.symm

/-- C1 (counterexample): the claim that a string is recognized exactly
when it belongs to `{"CERT_NONE","CERT_OPTIONAL","CERT_REQUIRED"}` is
false: `"PROTOCOL_SSLv23"` is outside that set, yet because it names an
`ssl`-module attribute whose value is the int 2 (every CPython), the
validator accepts it and returns `ssl.CERT_REQUIRED`. -/
theorem validate_cert_reqs_C1_counterexample :
    validate_cert_reqs_hasSSL baseEnv "ssl_cert_reqs" (.pystr "PROTOCOL_SSLv23")
        = .ok CERT_REQUIRED ∧
    ("PROTOCOL_SSLv23" ≠ "CERT_NONE" ∧ "PROTOCOL_SSLv23" ≠ "CERT_OPTIONAL" ∧
      "PROTOCOL_SSLv23" ≠ "CERT_REQUIRED") := by
  refine ⟨by decide, by decide, by decide, by decide⟩

/-- C1 (amended): `None` passes through; each of the three enum values is
returned unchanged; a string is recognized exactly when it names an
`ssl`-module attribute whose value is one of the three enum constants
(in particular the three canonical aliases are always recognized, since
the `ssl` module holds the `CERT_*` constants); every other value fails
with the `ValueError` naming the option. -/
theorem validate_cert_reqs_C1 (e : Env) (o : String) (hwf : e.wfAttrs) :
    validate_cert_reqs_hasSSL e o .pynone = .ok .pynone ∧
    (∀ v, v = CERT_NONE ∨ v = CERT_OPTIONAL ∨ v = CERT_REQUIRED →
      validate_cert_reqs_hasSSL e o v = .ok v) ∧
    (∀ s, validate_cert_reqs_hasSSL e o (.pystr s) =
      match e.sslAttrs s with
      | some v =>
        if v = CERT_NONE ∨ v = CERT_OPTIONAL ∨ v = CERT_REQUIRED then .ok v
        else .error (.valueError o)
      | none => .error (.valueError o)) ∧
    validate_cert_reqs_hasSSL e o (.pystr "CERT_NONE") = .ok CERT_NONE ∧
    validate_cert_reqs_hasSSL e o (.pystr "CERT_OPTIONAL") = .ok CERT_OPTIONAL ∧
    validate_cert_reqs_hasSSL e o (.pystr "CERT_REQUIRED") = .ok CERT_REQUIRED ∧
    (∀ n : Int, ¬(n = 0 ∨ n = 1 ∨ n = 2) →
      validate_cert_reqs_hasSSL e o (.pyint n) = .error (.valueError o)) ∧
    validate_cert_reqs_hasSSL e o .pyother = .error (.valueError o) := by
  obtain ⟨hw1, hw2, hw3⟩ := hwf
  have hstr : ∀ s, validate_cert_reqs_hasSSL e o (.pystr s) =
      match e.sslAttrs s with
      | some v =>
        if v = CERT_NONE ∨ v = CERT_OPTIONAL ∨ v = CERT_REQUIRED then .ok v
        else .error (.valueError o)
      | none => .error (.valueError o) := by
    intro s
    unfold validate_cert_reqs_hasSSL resolveAlias
    cases hattr : e.sslAttrs s <;>
      simp [hattr, CERT_NONE, CERT_OPTIONAL, CERT_REQUIRED]
  refine ⟨rfl, ?_, hstr, ?_, ?_, ?_, ?_, rfl⟩
  · rintro v (rfl | rfl | rfl) <;> rfl
  · rw [hstr, hw1]; rfl
  · rw [hstr, hw2]; rfl
  · rw [hstr, hw3]; rfl
  · intro n hn
    unfold validate_cert_reqs_hasSSL resolveAlias
    simp only [reduceCtorEq, if_false]
    rw [if_neg]
    simp only [CERT_NONE, CERT_OPTIONAL, CERT_REQUIRED, PyVal.pyint.injEq]
    exact hn

/-- C1 (witness): the amended theorem applied at the concrete CPython
environment, on the canonical alias "CERT_OPTIONAL". -/
theorem validate_cert_reqs_C1_witness :
    validate_cert_reqs_hasSSL baseEnv "ssl_cert_reqs" (.pystr "CERT_OPTIONAL")
      = .ok CERT_OPTIONAL :=
  (validate_cert_reqs_C1 baseEnv "ssl_cert_reqs" ⟨by decide, by decide, by decide⟩).2.2.2.2.1

/-- C5: with `cert_reqs = ssl.CERT_NONE` and no other option, assembly
succeeds with verification disabled, performs no action at all (no trust
source consulted, `_WINCERTS` untouched), and the result is a closed form
depending on no capability flag (only the protocol-hardening probe
`hasattr(ctx, "options")` through `initCtx`). -/
theorem get_ssl_context_C5 (e : Env) (st : Option String) :
    get_ssl_context_hasSSL e st none none none CERT_NONE none
      = ⟨.ok { initCtx e with verifyMode := some CERT_NONE }, st, []⟩ := rfl

/-- C8: when the `ssl` module is unavailable, every call to
`validate_cert_reqs` — including on `None` input — and every call to
`get_ssl_context` fails with the respective `ConfigurationError`,
regardless of all other options. -/
theorem no_ssl_C8 (e : Env) (h : e.haveSSL = false) :
    (∀ o v, validate_cert_reqs e o v = .error (.cantValidate o)) ∧
    (∀ o, validate_cert_reqs e o .pynone = .error (.cantValidate o)) ∧
    (∀ st certfile keyfile ca_certs cr crlfile,
      get_ssl_context e st certfile keyfile ca_certs cr crlfile
        = ⟨.error .sslUnavailable, st, []⟩) := by
  refine ⟨fun o v => ?_, fun o => ?_, fun st certfile keyfile ca_certs cr crlfile => ?_⟩ <;>
    simp [validate_cert_reqs, get_ssl_context, h]

/-- C8 (witness): the no-ssl validator rejects even `None`. -/
theorem no_ssl_C8_witness :
    validate_cert_reqs { baseEnv with haveSSL := false } "ssl_cert_reqs" .pynone
      = .error (.cantValidate "ssl_cert_reqs") :=
  (no_ssl_C8 { baseEnv with haveSSL := false } rfl).2.1 "ssl_cert_reqs"

/-- C9: across any number of serialized passes through the wincertstore
critical section (the mutex serializes concurrent first-callers, so every
interleaving is such a sequence), a first-time sequence performs exactly
one OS-store load, registers the `atexit` release callback during that
single load, leaves the cached handle in `_WINCERTS`, and hands every
caller the same handle; a sequence starting from a populated cache
performs no load at all and returns the cached handle each time. -/
theorem wincerts_C9 (e : Env) (n : Nat) (h : 1 ≤ n) :
    wincertsGetAll e n none
      = (some e.wincertsName, [Ev.osStoreLoad, Ev.atexitRegister],
          List.replicate n e.wincertsName) ∧
    (∀ hd m, wincertsGetAll e m (some hd) = (some hd, [], List.replicate m hd)) := by
  have cached : ∀ hd m, wincertsGetAll e m (some hd) = (some hd, [], List.replicate m hd) := by
    intro hd m
    induction m with
    | zero => rfl
    | succ k ih => simp [wincertsGetAll, wincertsLockStep, ih, List.replicate_succ]
  refine ⟨?_, cached⟩
  obtain ⟨k, rfl⟩ : ∃ k, n = k + 1 := ⟨n - 1, (Nat.succ_pred_eq_of_pos h).symm⟩
  simp [wincertsGetAll, wincertsLockStep, cached, List.replicate_succ]

/-- C9 (witness): three first-time callers, one load. -/
theorem wincerts_C9_witness :
    wincertsGetAll baseEnv 3 none
      = (some baseEnv.wincertsName, [Ev.osStoreLoad, Ev.atexitRegister],
          List.replicate 3 baseEnv.wincertsName) :=
  (wincerts_C9 baseEnv 3 (by decide)).1

/-- C10: CRL handling ignores the verification mode: with a CRL file
supplied, CRL support present and `cert_reqs = ssl.CERT_NONE`, assembly
succeeds with strict leaf-certificate CRL enforcement set and the CRL
file loaded, while the verification mode of the same context is
`CERT_NONE`. -/
theorem crl_certnone_C10 (e : Env) (st : Option String) (keyfile : Option String)
    (f : String) (hvf : e.hasVerifyFlags = true) (hload : e.loadOk f = true) :
    get_ssl_context_hasSSL e st none keyfile none CERT_NONE (some f)
      = ⟨.ok { initCtx e with
                verifyFlagsCRLCheckLeaf := true
                verifyLocations := [f]
                verifyMode := some CERT_NONE },
          st, [Ev.loadVerifyLocations f]⟩ := by
  simp [get_ssl_context_hasSSL, certStep, crlStep, caStep, finishCtx, initCtx,
    CERT_NONE, CERT_REQUIRED, hvf, hload]

/-- C10 (witness): concrete run with a CRL file and `CERT_NONE`. -/
theorem crl_certnone_C10_witness :
    get_ssl_context_hasSSL baseEnv none none none none CERT_NONE (some "crl.pem")
      = ⟨.ok { initCtx baseEnv with
                verifyFlagsCRLCheckLeaf := true
                verifyLocations := ["crl.pem"]
                verifyMode := some CERT_NONE },
          none, [Ev.loadVerifyLocations "crl.pem"]⟩ :=
  crl_certnone_C10 baseEnv none none "crl.pem" rfl rfl

/-- C2: a call that reaches the CA-resolution ladder (no explicit CA, no
client certificate, no CRL, verification demanded) behaves exactly as the
spec's ordered ladder prescribes — one trust action, chosen by the first
matching of steps 3–6, else `NoTrustMaterial` — and in particular with
`cert_reqs = CERT_REQUIRED` and every trust-source capability absent the
call fails with `NoTrustMaterial`. -/
theorem chain_C2 (e : Env) (st : Option String) (cr : PyVal) (h : cr ≠ CERT_NONE) :
    get_ssl_context_hasSSL e st none none none cr none = chainOutcome e st cr ∧
    ((e.hasLoadDefaultCerts = false ∧ e.hasSetDefaultVerifyPaths = false ∧
      e.haveWincertstore = false ∧ e.haveCertifi = false) →
      (get_ssl_context_hasSSL e st none none none cr none).res
        = .error Err.noTrustMaterial) := by
  have main : get_ssl_context_hasSSL e st none none none cr none = chainOutcome e st cr := by
    unfold get_ssl_context_hasSSL certStep crlStep caStep chainOutcome
      ca_resolution_chain wincertsLockStep
    cases hldc : e.hasLoadDefaultCerts <;>
      cases hsd : e.hasSetDefaultVerifyPaths <;>
      cases hw : e.isWin32 <;>
      cases hwin : e.haveWincertstore <;>
      cases hcf : e.haveCertifi <;>
      cases st <;>
      simp [h, hldc, hsd, hw, hwin, hcf, initCtx] <;>
      (try (split <;> simp_all))
  refine ⟨main, ?_⟩
  rintro ⟨h1, h2, h3, h4⟩
  rw [main]
  simp [chainOutcome, ca_resolution_chain, h1, h2, h3, h4]

/-- C2 (witness): `CERT_REQUIRED`, no CA file, all trust-source
capabilities absent: `NoTrustMaterial`. -/
theorem chain_C2_witness :
    (get_ssl_context_hasSSL
        { baseEnv with
            hasLoadDefaultCerts := false
            hasSetDefaultVerifyPaths := false
            haveWincertstore := false
            haveCertifi := false }
        none none none none CERT_REQUIRED none).res
      = .error Err.noTrustMaterial :=
  (chain_C2
      { baseEnv with
          hasLoadDefaultCerts := false
          hasSetDefaultVerifyPaths := false
          haveWincertstore := false
          haveCertifi := false }
      none CERT_REQUIRED (by decide)).2 ⟨rfl, rfl, rfl, rfl⟩

/-- C3: in the spec's pipeline the validator runs before assembly, so a
`cert_reqs` value the validator rejects makes the whole call fail with
the `InvalidOption` error naming the option, with no assembly action
performed and the OS-store cache untouched. -/
theorem build_context_C3 (e : Env) (st : Option String) (opts : TLSOptions) (err : Err)
    (hssl : e.haveSSL = true)
    (h : validate_cert_reqs e "ssl_cert_reqs" opts.certReqs = .error err) :
    build_context e st opts = ⟨.error err, st, []⟩ ∧
    err = .valueError "ssl_cert_reqs" := by
  constructor
  · unfold build_context
    rw [h]
  · rw [validate_cert_reqs, if_pos hssl] at h
    exact validate_hasSSL_error_shape e "ssl_cert_reqs" opts.certReqs err h

/-- C3 (witness): an unrecognized string alias fails the whole pipeline
with the `InvalidOption` error, before any assembly. -/
theorem build_context_C3_witness :
    build_context baseEnv none { certReqs := .pystr "CERT_BOGUS" }
      = ⟨.error (.valueError "ssl_cert_reqs"), none, []⟩ :=
  (build_context_C3 baseEnv none { certReqs := .pystr "CERT_BOGUS" }
      (.valueError "ssl_cert_reqs") rfl (by decide)).1

/-- Every successful pass through the CA stage ends in the final
`verify_mode` assignment: `cert_reqs`, defaulted to `CERT_REQUIRED` when
`None`. -/
theorem caStep_ok_mode (e : Env) (st : Option String) (ctx : Ctx) (evs : List Ev)
    (ca_certs : Option String) (cert_reqs : PyVal) (c : Ctx)
    (h : (caStep e st ctx evs ca_certs cert_reqs).res = .ok c) :
    c.verifyMode = some (if cert_reqs = .pynone then CERT_REQUIRED else cert_reqs) := by
  simp only [caStep] at h
  repeat' split at h
  all_goals simp_all [finishCtx]
  all_goals (subst h; rfl)

/-- Every successful pass through the CRL stage sets the final
`verify_mode` the same way. -/
theorem crlStep_ok_mode (e : Env) (st : Option String) (ctx : Ctx) (evs : List Ev)
    (ca_certs : Option String) (cert_reqs : PyVal) (crlfile : Option String) (c : Ctx)
    (h : (crlStep e st ctx evs ca_certs cert_reqs crlfile).res = .ok c) :
    c.verifyMode = some (if cert_reqs = .pynone then CERT_REQUIRED else cert_reqs) := by
  simp only [crlStep] at h
  repeat' split at h
  all_goals first
    | exact caStep_ok_mode _ _ _ _ _ _ _ h
    | simp_all

/-- Every successful `get_ssl_context` call sets the final `verify_mode`
the same way. -/
theorem get_ssl_context_ok_mode (e : Env) (st : Option String)
    (certfile keyfile ca_certs : Option String) (cert_reqs : PyVal)
    (crlfile : Option String) (c : Ctx)
    (h : (get_ssl_context_hasSSL e st certfile keyfile ca_certs cert_reqs crlfile).res
          = .ok c) :
    c.verifyMode = some (if cert_reqs = .pynone then CERT_REQUIRED else cert_reqs) := by
  unfold get_ssl_context_hasSSL at h
  simp only [certStep] at h
  repeat' split at h
  all_goals first
    | exact crlStep_ok_mode _ _ _ _ _ _ _ _ h
    | simp_all

/-- C4: in any successful build whose `cert_reqs` came out of the
validator, the context's verification mode is the resolved value
(`CERT_REQUIRED` when `cert_reqs` was `None`), hence always exactly one
of the three enum constants and never `None` or anything else. -/
theorem verify_mode_C4 (e : Env) (st : Option String) (o : String) (raw cr : PyVal)
    (certfile keyfile ca_certs crlfile : Option String) (c : Ctx)
    (hval : validate_cert_reqs_hasSSL e o raw = .ok cr)
    (hok : (get_ssl_context_hasSSL e st certfile keyfile ca_certs cr crlfile).res = .ok c) :
    c.verifyMode = some (if cr = .pynone then CERT_REQUIRED else cr) ∧
    (c.verifyMode = some CERT_NONE ∨ c.verifyMode = some CERT_OPTIONAL ∨
      c.verifyMode = some CERT_REQUIRED) := by
  have hmode := get_ssl_context_ok_mode e st certfile keyfile ca_certs cr crlfile c hok
  refine ⟨hmode, ?_⟩
  rcases validate_hasSSL_ok_shape e o raw cr hval with rfl | rfl | rfl | rfl <;>
    rw [hmode] <;> simp [CERT_NONE, CERT_OPTIONAL, CERT_REQUIRED]

/-- The context produced by `get_ssl_context` at the C4 witness input. -/
def c4ctx : Ctx :=
  { noSSLv2 := true, noSSLv3 := true, defaultCertsLoaded := true,
    verifyMode := some CERT_REQUIRED }

/-- C4 (witness): `cert_reqs = None` resolves to `CERT_REQUIRED` in the
built context. -/
theorem verify_mode_C4_witness :
    c4ctx.verifyMode
        = some (if (PyVal.pynone : PyVal) = .pynone then CERT_REQUIRED else .pynone) ∧
    (c4ctx.verifyMode = some CERT_NONE ∨ c4ctx.verifyMode = some CERT_OPTIONAL ∨
      c4ctx.verifyMode = some CERT_REQUIRED) :=
  verify_mode_C4 baseEnv none "ssl_cert_reqs" .pynone .pynone none none none none c4ctx
    (by decide) (by decide)

/-- The CA stage never resets the CRL flag and never drops a loaded
verify location. -/
theorem caStep_ok_pres (e : Env) (st : Option String) (ctx : Ctx) (evs : List Ev)
    (ca_certs : Option String) (cert_reqs : PyVal) (c : Ctx)
    (h : (caStep e st ctx evs ca_certs cert_reqs).res = .ok c) :
    c.verifyFlagsCRLCheckLeaf = ctx.verifyFlagsCRLCheckLeaf ∧
    ctx.verifyLocations ⊆ c.verifyLocations := by
  simp only [caStep] at h
  repeat' split at h
  all_goals simp_all [finishCtx]
  all_goals subst h
  all_goals first
    | exact ⟨rfl, List.subset_append_left _ _⟩
    | exact ⟨rfl, List.Subset.refl _⟩

/-- The CA stage only appends to the event log. -/
theorem caStep_evs_prefix (e : Env) (st : Option String) (ctx : Ctx) (evs : List Ev)
    (ca_certs : Option String) (cert_reqs : PyVal) :
    ∃ extra, (caStep e st ctx evs ca_certs cert_reqs).evs = evs ++ extra := by
  simp only [caStep]
  repeat' split
  all_goals first
    | exact ⟨[], (List.append_nil _).symm⟩
    | exact ⟨_, rfl⟩
    | exact ⟨_, List.append_assoc _ _ _⟩

theorem certStep_none (e : Env) (st : Option String) (ctx : Ctx)
    (keyfile ca_certs : Option String) (cert_reqs : PyVal) (crlfile : Option String) :
    certStep e st ctx none keyfile ca_certs cert_reqs crlfile
      = crlStep e st ctx [] ca_certs cert_reqs crlfile := rfl

theorem certStep_some_ok (e : Env) (st : Option String) (ctx : Ctx) (ch : String)
    (keyfile ca_certs : Option String) (cert_reqs : PyVal) (crlfile : Option String)
    (hok : e.certChainOk ch keyfile = true) :
    certStep e st ctx (some ch) keyfile ca_certs cert_reqs crlfile
      = crlStep e st { ctx with clientCert := some (ch, keyfile) }
          [Ev.loadCertChain ch keyfile] ca_certs cert_reqs crlfile := by
  simp [certStep, hok]

theorem crlStep_unsupported (e : Env) (st : Option String) (ctx : Ctx) (evs : List Ev)
    (ca_certs : Option String) (cert_reqs : PyVal) (f : String)
    (hvf : e.hasVerifyFlags = false) :
    crlStep e st ctx evs ca_certs cert_reqs (some f)
      = ⟨.error Err.crlUnsupported, st, evs⟩ := by
  simp [crlStep, hvf]

theorem crlStep_loadfail (e : Env) (st : Option String) (ctx : Ctx) (evs : List Ev)
    (ca_certs : Option String) (cert_reqs : PyVal) (f : String)
    (hvf : e.hasVerifyFlags = true) (hlo : e.loadOk f = false) :
    crlStep e st ctx evs ca_certs cert_reqs (some f)
      = ⟨.error (.loadFailure f), st, evs ++ [Ev.loadVerifyLocations f]⟩ := by
  simp [crlStep, hvf, hlo]

theorem crlStep_loaded (e : Env) (st : Option String) (ctx : Ctx) (evs : List Ev)
    (ca_certs : Option String) (cert_reqs : PyVal) (f : String)
    (hvf : e.hasVerifyFlags = true) (hlo : e.loadOk f = true) :
    crlStep e st ctx evs ca_certs cert_reqs (some f)
      = caStep e st
          { ctx with verifyFlagsCRLCheckLeaf := true, verifyLocations := ctx.verifyLocations ++ [f] }
          (evs ++ [Ev.loadVerifyLocations f]) ca_certs cert_reqs := by
  simp [crlStep, hvf, hlo]

/-- C6: for any input reaching the CRL stage (the client-certificate
step, which precedes it, does not fail), a supplied CRL file without
`verify_flags` support fails with the `UnsupportedCRL` configuration
error and no `load_verify_locations` call is ever made — the failure
precedes any attempt to load the CRL file; with support present, a
failing load surfaces as the CRL-load error, and on success the built
context has strict leaf-certificate CRL enforcement set and the CRL file
among its verify locations. -/
theorem crl_C6 (e : Env) (st : Option String)
    (certfile keyfile ca_certs : Option String) (cr : PyVal) (f : String)
    (hcert : ∀ ch, certfile = some ch → e.certChainOk ch keyfile = true) :
    (e.hasVerifyFlags = false →
      (get_ssl_context_hasSSL e st certfile keyfile ca_certs cr (some f)).res
          = .error Err.crlUnsupported ∧
      (∀ p, Ev.loadVerifyLocations p ∉
        (get_ssl_context_hasSSL e st certfile keyfile ca_certs cr (some f)).evs) ∧
      (get_ssl_context_hasSSL e st certfile keyfile ca_certs cr (some f)).wincerts = st) ∧
    (e.hasVerifyFlags = true →
      (e.loadOk f = false →
        (get_ssl_context_hasSSL e st certfile keyfile ca_certs cr (some f)).res
          = .error (Err.loadFailure f)) ∧
      (e.loadOk f = true →
        Ev.loadVerifyLocations f ∈
          (get_ssl_context_hasSSL e st certfile keyfile ca_certs cr (some f)).evs ∧
        ∀ c, (get_ssl_context_hasSSL e st certfile keyfile ca_certs cr (some f)).res = .ok c →
          c.verifyFlagsCRLCheckLeaf = true ∧ f ∈ c.verifyLocations)) := by
  have hred : ∃ ctx : Ctx, ∃ evs0 : List Ev,
      get_ssl_context_hasSSL e st certfile keyfile ca_certs cr (some f)
        = crlStep e st ctx evs0 ca_certs cr (some f) ∧
      (∀ p, Ev.loadVerifyLocations p ∉ evs0) := by
    cases certfile with
    | none =>
      exact ⟨initCtx e, [], rfl, by simp⟩
    | some ch =>
      refine ⟨{ initCtx e with clientCert := some (ch, keyfile) },
        [Ev.loadCertChain ch keyfile], ?_, by simp⟩
      exact certStep_some_ok e st (initCtx e) ch keyfile ca_certs cr (some f)
        (hcert ch rfl)
  obtain ⟨ctx, evs0, hred, hnolvl⟩ := hred
  rw [hred]
  constructor
  · intro hvf
    rw [crlStep_unsupported e st ctx evs0 ca_certs cr f hvf]
    exact ⟨rfl, hnolvl, rfl⟩
  · intro hvf
    constructor
    · intro hlo
      rw [crlStep_loadfail e st ctx evs0 ca_certs cr f hvf hlo]
    · intro hlo
      rw [crlStep_loaded e st ctx evs0 ca_certs cr f hvf hlo]
      constructor
      · obtain ⟨extra, hex⟩ := caStep_evs_prefix e st
          { ctx with verifyFlagsCRLCheckLeaf := true, verifyLocations := ctx.verifyLocations ++ [f] }
          (evs0 ++ [Ev.loadVerifyLocations f]) ca_certs cr
        rw [hex]
        simp
      · intro c hc
        obtain ⟨hflag, hsub⟩ := caStep_ok_pres e st
          { ctx with verifyFlagsCRLCheckLeaf := true, verifyLocations := ctx.verifyLocations ++ [f] }
          (evs0 ++ [Ev.loadVerifyLocations f]) ca_certs cr c hc
        refine ⟨hflag, hsub ?_⟩
        simp

/-- C6 (witness): CRL file supplied, CRL support absent, no client
certificate: the `UnsupportedCRL` failure with an empty event log. -/
theorem crl_C6_witness :
    (get_ssl_context_hasSSL { baseEnv with hasVerifyFlags := false }
        none none none none CERT_REQUIRED (some "crl.pem")).res
      = .error Err.crlUnsupported :=
  ((crl_C6 { baseEnv with hasVerifyFlags := false } none none none none CERT_REQUIRED
      "crl.pem" (fun ch hch => by cases hch)).1 rfl).1

/-- When `cert_reqs` is `CERT_NONE` and no CA file is given, the CA stage
does nothing but the final `verify_mode` assignment. -/
theorem caStep_none_certnone (e : Env) (st : Option String) (ctx : Ctx) (evs : List Ev) :
    caStep e st ctx evs none CERT_NONE = ⟨.ok (finishCtx ctx CERT_NONE), st, evs⟩ := rfl

/-- Frame of the CA stage when the resolution ladder is skipped (explicit
CA file, or verification disabled): the wincerts cache is untouched, the
only possible new event is the explicit CA load, a successful build holds
the explicit CA among its trust anchors, the default-trust fields are
unchanged, and a failing explicit CA load aborts with its load error. -/
theorem caStep_frame (e : Env) (st : Option String) (ctx : Ctx) (evs : List Ev)
    (ca_certs : Option String) (cert_reqs : PyVal)
    (h : ca_certs ≠ none ∨ cert_reqs = CERT_NONE) :
    (caStep e st ctx evs ca_certs cert_reqs).wincerts = st ∧
    (∀ ev, ev ∈ (caStep e st ctx evs ca_certs cert_reqs).evs →
      ev ∈ evs ∨ ∃ p, ca_certs = some p ∧ ev = Ev.loadVerifyLocations p) ∧
    (∀ p c, ca_certs = some p →
      (caStep e st ctx evs ca_certs cert_reqs).res = .ok c → p ∈ c.verifyLocations) ∧
    (∀ c, (caStep e st ctx evs ca_certs cert_reqs).res = .ok c →
      c.defaultCertsLoaded = ctx.defaultCertsLoaded ∧
      c.defaultVerifyPathsSet = ctx.defaultVerifyPathsSet) ∧
    (∀ p, ca_certs = some p → e.loadOk p = false →
      (caStep e st ctx evs ca_certs cert_reqs).res = .error (.loadFailure p)) := by
  cases ca_certs with
  | some ca =>
    simp only [caStep]
    cases hlo : e.loadOk ca <;> simp only [hlo, if_true, if_false, Bool.false_eq_true]
    · refine ⟨trivial, ?_, ?_, ?_, ?_⟩
      · intro ev hev
        rcases List.mem_append.mp hev with h1 | h1
        · exact Or.inl h1
        · exact Or.inr ⟨ca, rfl, by simpa using h1⟩
      · intro p c hp hc
        simp at hc
      · intro c hc
        simp at hc
      · intro p hp hlo2
        obtain rfl : ca = p := by injection hp
        rfl
    · refine ⟨trivial, ?_, ?_, ?_, ?_⟩
      · intro ev hev
        rcases List.mem_append.mp hev with h1 | h1
        · exact Or.inl h1
        · exact Or.inr ⟨ca, rfl, by simpa using h1⟩
      · intro p c hp hc
        obtain rfl : ca = p := by injection hp
        simp only [Except.ok.injEq] at hc
        subst hc
        simp [finishCtx]
      · intro c hc
        simp only [Except.ok.injEq] at hc
        subst hc
        exact ⟨rfl, rfl⟩
      · intro p hp hlo2
        obtain rfl : ca = p := by injection hp
        rw [hlo] at hlo2
        cases hlo2
  | none =>
    have hcr : cert_reqs = CERT_NONE := by
      rcases h with h | h
      · exact absurd rfl h
      · exact h
    subst hcr
    rw [caStep_none_certnone]
    refine ⟨rfl, fun ev hev => Or.inl hev, ?_, ?_, ?_⟩
    · intro p c hp
      cases hp
    · intro c hc
      simp only [Except.ok.injEq] at hc
      subst hc
      exact ⟨rfl, rfl⟩
    · intro p hp
      cases hp

/-- Frame of the CRL-plus-CA stages when the resolution ladder is
skipped.  `hevs` says the incoming event log holds no
`load_verify_locations` event (true for the log the certificate stage
passes down). -/
theorem crlStep_frame (e : Env) (st : Option String) (ctx : Ctx) (evs : List Ev)
    (ca_certs : Option String) (cert_reqs : PyVal) (crlfile : Option String)
    (h : ca_certs ≠ none ∨ cert_reqs = CERT_NONE)
    (hevs : ∀ p, Ev.loadVerifyLocations p ∉ evs) :
    (crlStep e st ctx evs ca_certs cert_reqs crlfile).wincerts = st ∧
    (∀ ev, ev ∈ (crlStep e st ctx evs ca_certs cert_reqs crlfile).evs →
      ev ∈ evs ∨ (∃ f, crlfile = some f ∧ ev = Ev.loadVerifyLocations f) ∨
        (∃ p, ca_certs = some p ∧ ev = Ev.loadVerifyLocations p)) ∧
    (∀ p c, ca_certs = some p →
      (crlStep e st ctx evs ca_certs cert_reqs crlfile).res = .ok c →
      p ∈ c.verifyLocations) ∧
    (∀ c, (crlStep e st ctx evs ca_certs cert_reqs crlfile).res = .ok c →
      c.defaultCertsLoaded = ctx.defaultCertsLoaded ∧
      c.defaultVerifyPathsSet = ctx.defaultVerifyPathsSet) ∧
    (∀ p, ca_certs = some p → e.loadOk p = false →
      Ev.loadVerifyLocations p ∈ (crlStep e st ctx evs ca_certs cert_reqs crlfile).evs →
      (crlStep e st ctx evs ca_certs cert_reqs crlfile).res = .error (.loadFailure p)) := by
  cases crlfile with
  | none =>
    obtain ⟨ha, hb, hc, hd, he⟩ := caStep_frame e st ctx evs ca_certs cert_reqs h
    refine ⟨ha, ?_, hc, hd, fun p hp hlo _ => he p hp hlo⟩
    intro ev hev
    rcases hb ev hev with h1 | h1
    · exact Or.inl h1
    · exact Or.inr (Or.inr h1)
  | some f =>
    cases hvf : e.hasVerifyFlags with
    | false =>
      rw [crlStep_unsupported e st ctx evs ca_certs cert_reqs f hvf]
      refine ⟨rfl, fun ev hev => Or.inl hev, ?_, ?_, ?_⟩
      · intro p c hp hc
        cases hc
      · intro c hc
        cases hc
      · intro p hp hlo hmem
        exact absurd hmem (hevs p)
    | true =>
      cases hlo : e.loadOk f with
      | false =>
        rw [crlStep_loadfail e st ctx evs ca_certs cert_reqs f hvf hlo]
        refine ⟨rfl, ?_, ?_, ?_, ?_⟩
        · intro ev hev
          rcases List.mem_append.mp hev with h1 | h1
          · exact Or.inl h1
          · exact Or.inr (Or.inl ⟨f, rfl, by simpa using h1⟩)
        · intro p c hp hc
          cases hc
        · intro c hc
          cases hc
        · intro p hp hlop hmem
          rcases List.mem_append.mp hmem with h1 | h1
          · exact absurd h1 (hevs p)
          · obtain rfl : p = f := by simpa using h1
            rfl
      | true =>
        rw [crlStep_loaded e st ctx evs ca_certs cert_reqs f hvf hlo]
        obtain ⟨ha, hb, hc, hd, he⟩ := caStep_frame e st
          { ctx with verifyFlagsCRLCheckLeaf := true, verifyLocations := ctx.verifyLocations ++ [f] }
          (evs ++ [Ev.loadVerifyLocations f]) ca_certs cert_reqs h
        refine ⟨ha, ?_, hc, ?_, ?_⟩
        · intro ev hev
          rcases hb ev hev with h1 | h1
          · rcases List.mem_append.mp h1 with h2 | h2
            · exact Or.inl h2
            · exact Or.inr (Or.inl ⟨f, rfl, by simpa using h2⟩)
          · exact Or.inr (Or.inr h1)
        · intro c hcok
          exact hd c hcok
        · intro p hp hlop _
          exact he p hp hlop


/-- C7: whenever an explicit CA file is supplied or verification is
disabled, the CA-resolution ladder never runs: the wincerts cache is left
unchanged, no chain-only action (default-cert loading, default verify
paths, OS-store read, atexit registration) occurs, every
`load_verify_locations` call is for the caller's CRL file or explicit CA
file (so no bundled-CA or OS-store location is loaded), a successful
build carries the explicit CA file among its trust anchors with the
default-trust fields untouched, and a failing explicit CA load aborts
with its load error. -/
theorem frame_C7 (e : Env) (st : Option String)
    (certfile keyfile ca_certs : Option String) (cert_reqs : PyVal)
    (crlfile : Option String)
    (h : ca_certs ≠ none ∨ cert_reqs = CERT_NONE) :
    (get_ssl_context_hasSSL e st certfile keyfile ca_certs cert_reqs crlfile).wincerts = st ∧
    (∀ ev, ev ∈ (get_ssl_context_hasSSL e st certfile keyfile ca_certs cert_reqs crlfile).evs →
      isChainEv ev = false) ∧
    (∀ p, Ev.loadVerifyLocations p ∈
        (get_ssl_context_hasSSL e st certfile keyfile ca_certs cert_reqs crlfile).evs →
      some p = crlfile ∨ some p = ca_certs) ∧
    (∀ p c, ca_certs = some p →
      (get_ssl_context_hasSSL e st certfile keyfile ca_certs cert_reqs crlfile).res = .ok c →
      p ∈ c.verifyLocations) ∧
    (∀ c, (get_ssl_context_hasSSL e st certfile keyfile ca_certs cert_reqs crlfile).res = .ok c →
      c.defaultCertsLoaded = false ∧ c.defaultVerifyPathsSet = false) ∧
    (∀ p, ca_certs = some p → e.loadOk p = false →
      Ev.loadVerifyLocations p ∈
        (get_ssl_context_hasSSL e st certfile keyfile ca_certs cert_reqs crlfile).evs →
      (get_ssl_context_hasSSL e st certfile keyfile ca_certs cert_reqs crlfile).res
        = .error (.loadFailure p)) := by
  cases certfile with
  | none =>
    rw [get_ssl_context_hasSSL, certStep_none]
    obtain ⟨ha, hb, hc, hd, he⟩ := crlStep_frame e st (initCtx e) [] ca_certs cert_reqs
      crlfile h (by simp)
    refine ⟨ha, ?_, ?_, hc, ?_, he⟩
    · intro ev hev
      rcases hb ev hev with h1 | ⟨f, _, rfl⟩ | ⟨q, _, rfl⟩
      · simp at h1
      · rfl
      · rfl
    · intro p hp
      rcases hb _ hp with h1 | ⟨f, hf, hev⟩ | ⟨q, hq, hev⟩
      · simp at h1
      · obtain rfl : p = f := by injection hev
        exact Or.inl hf.symm
      · obtain rfl : p = q := by injection hev
        exact Or.inr hq.symm
    · intro c hok
      exact hd c hok
  | some ch =>
    rw [get_ssl_context_hasSSL]
    cases hcc : e.certChainOk ch keyfile with
    | false =>
      have hstep : certStep e st (initCtx e) (some ch) keyfile ca_certs cert_reqs crlfile
          = ⟨.error (.certChainFailure ch), st, [Ev.loadCertChain ch keyfile]⟩ := by
        simp [certStep, hcc]
      rw [hstep]
      refine ⟨rfl, ?_, ?_, ?_, ?_, ?_⟩
      · intro ev hev
        obtain rfl : ev = Ev.loadCertChain ch keyfile := by simpa using hev
        rfl
      · intro p hp
        simp at hp
      · intro p c hp hok
        cases hok
      · intro c hok
        cases hok
      · intro p hp hlo hmem
        simp at hmem
    | true =>
      rw [certStep_some_ok e st (initCtx e) ch keyfile ca_certs cert_reqs crlfile hcc]
      obtain ⟨ha, hb, hc, hd, he⟩ := crlStep_frame e st
        { initCtx e with clientCert := some (ch, keyfile) }
        [Ev.loadCertChain ch keyfile] ca_certs cert_reqs crlfile h (by simp)
      refine ⟨ha, ?_, ?_, hc, ?_, he⟩
      · intro ev hev
        rcases hb ev hev with h1 | ⟨f, _, rfl⟩ | ⟨q, _, rfl⟩
        · obtain rfl : ev = Ev.loadCertChain ch keyfile := by simpa using h1
          rfl
        · rfl
        · rfl
      · intro p hp
        rcases hb _ hp with h1 | ⟨f, hf, hev⟩ | ⟨q, hq, hev⟩
        · simp at h1
        · obtain rfl : p = f := by injection hev
          exact Or.inl hf.symm
        · obtain rfl : p = q := by injection hev
          exact Or.inr hq.symm
      · intro c hok
        exact hd c hok

/-- C7 (witness): the spec's scenario — client certificate plus explicit
CA file with verification required — leaves the OS-store cache untouched. -/
theorem frame_C7_witness :
    (get_ssl_context_hasSSL baseEnv none (some "client.pem") none (some "ca.pem")
        CERT_REQUIRED none).wincerts = none :=
  (frame_C7 baseEnv none (some "client.pem") none (some "ca.pem") CERT_REQUIRED none
      (Or.inl (by simp))).1

end PyMongoSSL
